import Mathlib

/-!
Verification development for the Paraná municipal trade dashboard
(src/app.py, src/app2.py).

The program is a pandas-based aggregation and reporting engine.  We embed
its core shallowly:

* a data frame is a `List` of typed records; `VL_FOB` values are modelled
  as rationals (`ℚ`) — the relevant pandas arithmetic (sums, differences,
  division guarded by a positivity test) is exact on the inputs the claims
  quantify over, and `ℚ` keeps it exact;
* `pd.to_numeric(..., errors='coerce')` yields `Option ℚ` (`none` = NaN,
  i.e. the cell failed numeric coercion), and `.fillna(0)` is `Option.getD 0`;
* `groupby(key)[col].sum()` (pandas sorts group keys ascending) becomes
  "sorted dedup of keys, each paired with the sum over the matching rows";
* `pd.concat(axis=1)`/outer alignment with `fillna(0)` becomes a map over
  the sorted union of the key lists, looking each side up with default 0;
* `.reindex(range(1, 13), fill_value=0)` becomes a map over `1..12` with
  defaulted lookups;
* an Excel sheet written by `to_excel(..., index=False, startrow=k)` is a
  `List (List Cell)` of rows; an untouched spreadsheet row is the empty row
  `[]`.  `df_info` (2 data rows, header included) occupies rows 0–2; a
  NON-empty ranking table written at `startrow=4` puts its header at row 4
  and its data from row 5 on, leaving row 3 as the only blank row; the
  empty ranking table is the column-less `pd.DataFrame()` of line 50, and
  `to_excel` of a zero-column frame emits no header and no cells, so in
  that case nothing at all follows the metadata block.
-/

namespace ImpExp

/-- A record of the consolidated CSV after ingestion (one row of
`df_export`/`df_import` in `carregar_dados`, src/app.py lines 34-42):
municipality name `NOME_MUN`, year `CO_ANO`, month `CO_MES`, product
description `NO_SH4_POR` and the coerced FOB value `VL_FOB`. -/
structure TradeRecord where
  nome_mun : String
  co_ano : Int
  co_mes : Nat
  no_sh4_por : String
  vl_fob : ℚ
deriving DecidableEq

/-- A raw CSV row before the `VL_FOB` normalisation: `vl_fob_coerced` is the
result of `pd.to_numeric(raw_cell, errors='coerce')` — `some q` when the cell
parses as the number `q`, `none` when coercion fails (pandas NaN). -/
structure RawRecord where
  nome_mun : String
  co_ano : Int
  co_mes : Nat
  no_sh4_por : String
  vl_fob_coerced : Option ℚ
deriving DecidableEq

/-- Ingestion step of `carregar_dados` (src/app.py lines 40-41):
`df['VL_FOB'] = pd.to_numeric(df['VL_FOB'], errors='coerce').fillna(0)`.
Every row is kept; a coercion failure becomes the value 0. -/
def carregar_dados (raw : List RawRecord) : List TradeRecord :=
  raw.map (fun r => ⟨r.nome_mun, r.co_ano, r.co_mes, r.no_sh4_por, r.vl_fob_coerced.getD 0⟩)

/-- The selectable municipality list (src/app.py line 107):
`sorted(df_export_original['NOME_MUN'].unique())`.  Note that only the
export frame is consulted. -/
def lista_municipios (df_export : List TradeRecord) : List String :=
  List.insertionSort (fun a b => a ≤ b) (df_export.map (fun r => r.nome_mun)).dedup

/-- The cascading filter applied to one frame (src/app.py lines 119-127):
municipality equality always; year equality only when a specific year is
selected (`ano = some a`); month equality only inside the year branch and
only when a specific month is selected.  `none` plays the role of the
"Todos os anos" / "Todos os meses" sentinel. -/
def aplicar_filtros (dfo : List TradeRecord) (municipio : String)
    (ano : Option Int) (mes : Option Nat) : List TradeRecord :=
  let df := dfo.filter (fun r => r.nome_mun == municipio)
  match ano with
  | none => df
  | some a =>
      let df2 := df.filter (fun r => r.co_ano == a)
      match mes with
      | none => df2
      | some m => df2.filter (fun r => r.co_mes == m)

/-- Grouping step of `criar_tabela_top10_com_totais` (src/app.py line 52):
`df.groupby('NO_SH4_POR')['VL_FOB'].sum()` — pandas emits one row per
distinct product, keys sorted ascending, each with the sum of `VL_FOB`
over the matching records. -/
def produtos_agrupados (df : List TradeRecord) : List (String × ℚ) :=
  (List.insertionSort (fun a b => a ≤ b) (df.map (fun r => r.no_sh4_por)).dedup).map
    (fun p => (p, ((df.filter (fun r => r.no_sh4_por == p)).map (fun r => r.vl_fob)).sum))

/-- The order used by `.sort_values(ascending=False)` on the summed values
(src/app.py line 52): descending by the group's value. -/
def valorDesc (a b : String × ℚ) : Prop := b.2 ≤ a.2

instance : DecidableRel valorDesc := fun a b => inferInstanceAs (Decidable (b.2 ≤ a.2))

/-- A row of the final ranking table (src/app.py line 61), with the columns
in their final order: `'#'` (rank), `'Produto'`, `'Valor (US$)'`,
`'Percentual (%)'`. -/
structure RankRow where
  rank : String
  produto : String
  valor : ℚ
  percentual : ℚ
deriving DecidableEq

/-- Builds the ranked rows: row `i` (0-based) of the top-10 block gets the
rank string `str(i+1)` (src/app.py line 60) and the percent column of
line 59. -/
def linhasRanking (pct : ℚ → ℚ) : Nat → List (String × ℚ) → List RankRow
  | _, [] => []
  | i, pv :: rest => ⟨toString (i + 1), pv.1, pv.2, pct pv.2⟩ :: linhasRanking pct (i + 1) rest

/-- Local `total_geral` of `criar_tabela_top10_com_totais` (src/app.py
line 51): the FOB sum of the whole filtered collection. -/
def total_geral (df : List TradeRecord) : ℚ := (df.map (fun r => r.vl_fob)).sum

/-- The product groups sorted descending by summed value (src/app.py
line 52, `.sort_values(ascending=False)`). -/
def grupos_ordenados (df : List TradeRecord) : List (String × ℚ) :=
  List.insertionSort valorDesc (produtos_agrupados df)

/-- Local `top_10` (src/app.py line 54): the first 10 groups. -/
def top_10 (df : List TradeRecord) : List (String × ℚ) := (grupos_ordenados df).take 10

/-- Local `soma_demais` (src/app.py line 55): the summed value of every
group beyond rank 10. -/
def soma_demais (df : List TradeRecord) : ℚ :=
  (((grupos_ordenados df).drop 10).map (fun pv => pv.2)).sum

/-- The percent column of src/app.py line 59:
`(value / total_geral) * 100 if total_geral > 0 else 0`. -/
def pct (df : List TradeRecord) (v : ℚ) : ℚ :=
  if 0 < total_geral df then v / total_geral df * 100 else 0

/-- Embedding of `criar_tabela_top10_com_totais` (src/app.py lines 47-62):
empty input yields the empty table; otherwise group by product, sort
descending by value, keep the first 10, absorb the rest into a
"Demais Produtos" (Others) row, append a "TOTAL" row carrying the sum of
the whole input, and derive the percent column. -/
def criar_tabela_top10_com_totais (df : List TradeRecord) : List RankRow :=
  if df = [] then []
  else
    linhasRanking (pct df) 0 (top_10 df) ++
      [⟨"", "Demais Produtos", soma_demais df, pct df (soma_demais df)⟩,
       ⟨"", "TOTAL", total_geral df, pct df (total_geral df)⟩]

/-- A spreadsheet cell: a string or a full-precision number. -/
inductive Cell where
  | str : String → Cell
  | num : ℚ → Cell
deriving DecidableEq

/-- The cells `to_excel` writes for one ranking-table row, in the frame's
column order `#`, `Produto`, `Valor (US$)`, `Percentual (%)`. -/
def linhaTabela (r : RankRow) : List Cell :=
  [Cell.str r.rank, Cell.str r.produto, Cell.num r.valor, Cell.num r.percentual]

/-- The header row `to_excel` writes for the ranking table. -/
def cabecalhoTabela : List Cell :=
  [Cell.str "#", Cell.str "Produto", Cell.str "Valor (US$)", Cell.str "Percentual (%)"]

/-- One sheet of the report (src/app.py lines 68-75): `df_info` (header
`Filtro`/`Seleção` plus the two key-value rows) is written at `startrow=0`
and occupies rows 0-2.  A non-empty ranking table is written at
`startrow=4`, so its header is row 4 and its data rows start at row 5,
leaving row 3 as the single blank row.  An empty ranking table is the
column-less `pd.DataFrame()` returned at src/app.py line 50, and
`to_excel` of a zero-column frame writes no header and no cells, so the
sheet then holds nothing beyond the metadata block. -/
def excelSheet (municipio periodo : String) (tabela : List RankRow) : List (List Cell) :=
  [[Cell.str "Filtro", Cell.str "Seleção"],
   [Cell.str "Município", Cell.str municipio],
   [Cell.str "Período", Cell.str periodo]] ++
  if tabela = [] then []
  else [[], cabecalhoTabela] ++ tabela.map linhaTabela

/-- Embedding of `gerar_arquivo_excel` (src/app.py lines 64-76): the
artifact holds two named sheets, `Exportações` then `Importações`, each
laid out by `excelSheet`. -/
def gerar_arquivo_excel (df_exp df_imp : List RankRow) (municipio periodo : String) :
    List (String × List (List Cell)) :=
  [("Exportações", excelSheet municipio periodo df_exp),
   ("Importações", excelSheet municipio periodo df_imp)]

/-- The download decision of `main_dashboard` (src/app.py lines 203-208):
the report bytes are produced exactly when at least one of the two ranking
tables is non-empty; otherwise no artifact is generated (`none`). -/
def relatorio_download (df_export df_import : List TradeRecord)
    (municipio periodo : String) : Option (List (String × List (List Cell))) :=
  let tabela_exp := criar_tabela_top10_com_totais df_export
  let tabela_imp := criar_tabela_top10_com_totais df_import
  if tabela_exp ≠ [] ∨ tabela_imp ≠ [] then
    some (gerar_arquivo_excel tabela_exp tabela_imp municipio periodo)
  else none

/-- Yearly grouping `df.groupby('CO_ANO')['VL_FOB'].sum()` (src/app.py
lines 141-142): one entry per distinct year, keys ascending, values the
summed FOB. -/
def groupSumAno (df : List TradeRecord) : List (Int × ℚ) :=
  (List.insertionSort (fun a b => a ≤ b) (df.map (fun r => r.co_ano)).dedup).map
    (fun a => (a, ((df.filter (fun r => r.co_ano == a)).map (fun r => r.vl_fob)).sum))

/-- Embedding of the multi-year balance (src/app.py lines 141-145):
`pd.concat([exp_anual, imp_anual], axis=1).fillna(0)` outer-aligns the two
yearly series on the sorted union of their years, filling a year missing
from one side with 0, after which the net column is the difference.  Each
output entry is `(year, export_total, import_total, net)`. -/
def balanca_anual (df_export df_import : List TradeRecord) : List (Int × ℚ × ℚ × ℚ) :=
  let exp_anual := groupSumAno df_export
  let imp_anual := groupSumAno df_import
  (List.insertionSort (fun a b => a ≤ b)
      ((exp_anual.map Prod.fst) ++ (imp_anual.map Prod.fst)).dedup).map
    (fun a =>
      (a, (exp_anual.lookup a).getD 0, (imp_anual.lookup a).getD 0,
       (exp_anual.lookup a).getD 0 - (imp_anual.lookup a).getD 0))

/-- Monthly grouping `df.groupby('CO_MES')['VL_FOB'].sum()` (src/app.py
lines 163-164). -/
def groupSumMes (df : List TradeRecord) : List (Nat × ℚ) :=
  (List.insertionSort (fun a b => a ≤ b) (df.map (fun r => r.co_mes)).dedup).map
    (fun m => (m, ((df.filter (fun r => r.co_mes == m)).map (fun r => r.vl_fob)).sum))

/-- Embedding of the monthly balance (src/app.py lines 163-168): the
outer-aligned, zero-filled monthly series are reindexed over
`range(1, 13)` with `fill_value=0`, so the output has one entry per month
1..12 in order; a month absent from a flow's grouping contributes 0, and
the net column is computed after the reindex.  Each output entry is
`(month, export_total, import_total, net)`. -/
def balanca_mensal (df_export df_import : List TradeRecord) : List (Nat × ℚ × ℚ × ℚ) :=
  let exp_mensal := groupSumMes df_export
  let imp_mensal := groupSumMes df_import
  (List.range' 1 12).map
    (fun m =>
      (m, (exp_mensal.lookup m).getD 0, (imp_mensal.lookup m).getD 0,
       (exp_mensal.lookup m).getD 0 - (imp_mensal.lookup m).getD 0))

/-- Floor of a rational, computed by floor-division of the numerator by the
denominator (kept kernel-computable on purpose). -/
def ratFloor (q : ℚ) : Int := Int.fdiv q.num (q.den : Int)

/-- Rounds a rational to the nearest integer, ties to even — the rounding
Python's fixed-point float formatting applies; on the inputs considered
here no tie arises, so the choice of tie-break is immaterial. -/
def roundHalfEven (q : ℚ) : Int :=
  let f : Int := ratFloor q
  if q - f < 1 / 2 then f
  else if 1 / 2 < q - f then f + 1
  else if f % 2 = 0 then f else f + 1

/-- Regroups a reversed digit list into blocks of three separated by `'.'`,
mirroring the thousands separator Python's `{:,}` inserts (after
`formatar_brl` swaps the separators). -/
def grupoMilharesAux : List Char → List Char
  | a :: b :: c :: d :: rest => a :: b :: c :: '.' :: grupoMilharesAux (d :: rest)
  | l => l

/-- Inserts the `'.'` thousands separators into a digit string. -/
def grupoMilhares (s : String) : String :=
  String.mk (grupoMilharesAux s.toList.reverse).reverse

/-- Renders `n < 100` as exactly two digits. -/
def doisDigitos (n : Nat) : String :=
  if n < 10 then "0" ++ toString n else toString n

/-- Embedding of `formatar_brl` (src/app.py lines 29-31): a missing/NaN
input (`none`) yields the sentinel `"N/A"`; otherwise the value is
rendered with two fractional digits via `f"{valor:,.2f}"` and the
thousands/decimal separators are swapped to `"."`/`","`. -/
def formatar_brl (valor : Option ℚ) : String :=
  match valor with
  | none => "N/A"
  | some v =>
      let cents : Int := roundHalfEven (v * 100)
      let sinal : String := if cents < 0 then "-" else ""
      let a : Nat := cents.natAbs
      sinal ++ grupoMilhares (toString (a / 100)) ++ "," ++ doisDigitos (a % 100)

/-! Helper lemmas -/

/-- A lookup into an association list misses exactly when the key is absent
from the key column. -/
theorem lookup_eq_none_of_not_mem_keys {α β : Type} [BEq α] [LawfulBEq α]
    (l : List (α × β)) (a : α) (h : a ∉ l.map Prod.fst) : l.lookup a = none := by
  induction l with
  | nil => rfl
  | cons p t ih =>
      obtain ⟨k, b⟩ := p
      simp only [List.map_cons, List.mem_cons] at h
      push_neg at h
      rw [List.lookup_cons]
      have hk : (a == k) = false := beq_eq_false_iff_ne.mpr h.1
      simp [hk, ih h.2]

/-- Splitting a FOB sum along a Boolean predicate. -/
theorem sum_map_filter_split (df : List TradeRecord) (p : TradeRecord → Bool) :
    ((df.filter p).map (fun r => r.vl_fob)).sum
      + ((df.filter (fun r => !(p r))).map (fun r => r.vl_fob)).sum
      = (df.map (fun r => r.vl_fob)).sum := by
  induction df with
  | nil => simp
  | cons r t ih =>
      cases h : p r with
      | true => simp [List.filter_cons, h]; linarith
      | false => simp [List.filter_cons, h]; linarith

/-- Summing the per-product group sums over any duplicate-free list of keys
that covers every record gives back the plain FOB sum of the collection. -/
theorem sum_grupos_produto (ps : List String) (df : List TradeRecord)
    (hnd : ps.Nodup) (hall : ∀ r ∈ df, r.no_sh4_por ∈ ps) :
    (ps.map (fun p =>
        ((df.filter (fun r => r.no_sh4_por == p)).map (fun r => r.vl_fob)).sum)).sum
      = (df.map (fun r => r.vl_fob)).sum := by
  induction ps generalizing df with
  | nil =>
      have hdf : df = [] := by
        cases df with
        | nil => rfl
        | cons r t => exact absurd (hall r (by simp)) (by simp)
      subst hdf; simp
  | cons p ps ih =>
      have hps := List.nodup_cons.mp hnd
      have hrest : ∀ q ∈ ps,
          df.filter (fun r => r.no_sh4_por == q)
            = (df.filter (fun r => !(r.no_sh4_por == p))).filter
                (fun r => r.no_sh4_por == q) := by
        intro q hq
        rw [List.filter_filter]
        apply List.filter_congr
        intro r _
        by_cases hrq : r.no_sh4_por = q
        · have h1 : (r.no_sh4_por == q) = true := beq_iff_eq.mpr hrq
          have h2 : (r.no_sh4_por == p) = false := by
            refine beq_eq_false_iff_ne.mpr ?_
            rw [hrq]; intro hqp; exact hps.1 (hqp ▸ hq)
          simp [h1, h2]
        · have h1 : (r.no_sh4_por == q) = false := beq_eq_false_iff_ne.mpr hrq
          simp [h1]
      have hall2 : ∀ r ∈ df.filter (fun r => !(r.no_sh4_por == p)), r.no_sh4_por ∈ ps := by
        intro r hr
        have hrdf := List.mem_filter.mp hr
        rcases List.mem_cons.mp (hall r hrdf.1) with hkey | hkey
        · exfalso; have h2 := hrdf.2; simp [hkey] at h2
        · exact hkey
      have hmap : ps.map (fun q =>
            ((df.filter (fun r => r.no_sh4_por == q)).map (fun r => r.vl_fob)).sum)
          = ps.map (fun q =>
            (((df.filter (fun r => !(r.no_sh4_por == p))).filter
                (fun r => r.no_sh4_por == q)).map (fun r => r.vl_fob)).sum) :=
        List.map_congr_left (fun q hq => by rw [hrest q hq])
      simp only [List.map_cons, List.sum_cons]
      rw [hmap, ih (df.filter (fun r => !(r.no_sh4_por == p))) hps.2 hall2]
      exact sum_map_filter_split df (fun r => r.no_sh4_por == p)

/-- The value column of the ranked block is exactly the group values. -/
theorem linhasRanking_map_valor (pct : ℚ → ℚ) (i : Nat) (l : List (String × ℚ)) :
    (linhasRanking pct i l).map (fun r => r.valor) = l.map Prod.snd := by
  induction l generalizing i with
  | nil => rfl
  | cons pv rest ih => simp [linhasRanking, ih]

/-- Every ranked row carries the percent of its own value. -/
theorem percentual_mem_linhasRanking (pct : ℚ → ℚ) :
    ∀ (i : Nat) (l : List (String × ℚ)) (row : RankRow),
      row ∈ linhasRanking pct i l → row.percentual = pct row.valor
  | _, [], _, h => by cases h
  | i, pv :: rest, row, h => by
      rcases List.mem_cons.mp h with h1 | h1
      · subst h1; rfl
      · exact percentual_mem_linhasRanking pct (i + 1) rest row h1

/-- The ranking table is empty exactly when the filtered collection is. -/
theorem criar_tabela_eq_nil_iff (df : List TradeRecord) :
    criar_tabela_top10_com_totais df = [] ↔ df = [] := by
  constructor
  · intro h
    by_contra hdf
    simp only [criar_tabela_top10_com_totais, if_neg hdf] at h
    simp at h
  · intro h; subst h; rfl

/-- Unfolding of the non-empty branch of the ranking-table builder. -/
theorem criar_tabela_eq (df : List TradeRecord) (h : df ≠ []) :
    criar_tabela_top10_com_totais df =
      linhasRanking (pct df) 0 (top_10 df) ++
        [⟨"", "Demais Produtos", soma_demais df, pct df (soma_demais df)⟩,
         ⟨"", "TOTAL", total_geral df, pct df (total_geral df)⟩] := by
  simp only [criar_tabela_top10_com_totais, if_neg h]

/-- Shape facts about a list ending in an explicit pair of rows. -/
theorem getLast_append_pair {α : Type} (A : List α) (d t : α) :
    (A ++ [d, t]).getLast? = some t ∧ (A ++ [d, t]).dropLast = A ++ [d] := by
  have h : A ++ [d, t] = (A ++ [d]) ++ [t] := by simp
  rw [h]
  exact ⟨List.getLast?_concat _, List.dropLast_concat⟩

/-- The top-10 values plus the residual reconstruct the grand total. -/
theorem top10_mais_demais_eq_total (df : List TradeRecord) :
    ((top_10 df).map (fun pv => pv.2)).sum + soma_demais df = total_geral df := by
  have hperm : List.Perm (grupos_ordenados df) (produtos_agrupados df) :=
    List.perm_insertionSort _ _
  have hsum : ((grupos_ordenados df).map (fun pv => pv.2)).sum
      = ((produtos_agrupados df).map (fun pv => pv.2)).sum :=
    (hperm.map (fun pv => pv.2)).sum_eq
  have hsplit : ((top_10 df).map (fun pv => pv.2)).sum + soma_demais df
      = ((grupos_ordenados df).map (fun pv => pv.2)).sum := by
    rw [top_10, soma_demais]
    conv_rhs => rw [← List.take_append_drop 10 (grupos_ordenados df)]
    rw [List.map_append, List.sum_append]
  have hkeys_nodup : (List.insertionSort (fun a b => a ≤ b)
      (df.map (fun r => r.no_sh4_por)).dedup).Nodup :=
    ((List.perm_insertionSort _ _).nodup_iff).mpr (List.nodup_dedup _)
  have hall : ∀ r ∈ df, r.no_sh4_por ∈ List.insertionSort (fun a b => a ≤ b)
      (df.map (fun r => r.no_sh4_por)).dedup := by
    intro r hr
    simp only [List.mem_insertionSort, List.mem_dedup]
    exact List.mem_map_of_mem _ hr
  have hgroups : ((produtos_agrupados df).map (fun pv => pv.2)).sum
      = total_geral df := by
    simp only [produtos_agrupados, total_geral, List.map_map]
    exact sum_grupos_produto _ df hkeys_nodup hall
  rw [hsplit, hsum, hgroups]

/-- The yearly grouping's key column is exactly the set of years of the
collection. -/
theorem groupSumAno_keys (df : List TradeRecord) (a : Int) :
    a ∈ (groupSumAno df).map Prod.fst ↔ a ∈ df.map (fun r => r.co_ano) := by
  simp [groupSumAno, List.map_map, List.mem_dedup]

/-- The monthly grouping's key column is exactly the set of months of the
collection. -/
theorem groupSumMes_keys (df : List TradeRecord) (m : Nat) :
    m ∈ (groupSumMes df).map Prod.fst ↔ m ∈ df.map (fun r => r.co_mes) := by
  simp [groupSumMes, List.map_map, List.mem_dedup]

/-! Claim theorems -/

/-- C5: the filter cascade applies municipality equality always, year
equality only when a specific year is selected, and month equality only
when both a specific year and a specific month are selected; in particular
with year = "ALL" (`none`) any month value is ignored and the result is the
municipality-only filter. -/
theorem C5_filter_cascade (df : List TradeRecord) (municipio : String)
    (a : Int) (m : Nat) (mes : Option Nat) :
    aplicar_filtros df municipio none mes = df.filter (fun r => r.nome_mun == municipio)
    ∧ aplicar_filtros df municipio (some a) none
        = (df.filter (fun r => r.nome_mun == municipio)).filter (fun r => r.co_ano == a)
    ∧ aplicar_filtros df municipio (some a) (some m)
        = ((df.filter (fun r => r.nome_mun == municipio)).filter
            (fun r => r.co_ano == a)).filter (fun r => r.co_mes == m) :=
  ⟨rfl, rfl, rfl⟩

unseal Rat.mul Rat.add Rat.sub Rat.inv in
/-- C9: the locale formatter maps 1234567.891 to "1.234.567,89" and a
missing/NaN input to the sentinel "N/A".  It is a plain function of its
argument, hence pure and deterministic. -/
theorem C9_formatar_brl :
    formatar_brl (some ((1234567891 : ℚ) / 1000)) = "1.234.567,89"
    ∧ formatar_brl none = "N/A" :=
  ⟨by decide, rfl⟩

/-- C2 counterexample: the claim says every region present in either flow is
selectable, but the selectable list is built from the export frame alone
(src/app.py line 107).  With an empty export frame and an import frame
containing the municipality "B", "B" is present in the import flow yet is
not in the selectable list. -/
theorem C2_counterexample :
    "B" ∈ ([⟨"B", 2020, 1, "P", (1 : ℚ)⟩] : List TradeRecord).map (fun r => r.nome_mun)
    ∧ "B" ∉ lista_municipios ([] : List TradeRecord) := by
  constructor
  · simp
  · simp [lista_municipios]

/-- C2 amended: the selectable region list is the sorted, duplicate-free
list of the region names of the EXPORT flow only; a region appearing only
in the import flow is not selectable. -/
theorem C2_region_list (df_export : List TradeRecord) (m : String) :
    (m ∈ lista_municipios df_export ↔ m ∈ df_export.map (fun r => r.nome_mun))
    ∧ (lista_municipios df_export).Sorted (fun a b => a ≤ b)
    ∧ (lista_municipios df_export).Nodup := by
  refine ⟨?_, ?_, ?_⟩
  · simp [lista_municipios, List.mem_dedup]
  · exact List.sorted_insertionSort _ _
  · exact ((List.perm_insertionSort _ _).nodup_iff).mpr (List.nodup_dedup _)

/-- C3 counterexample: the claim's gap of exactly 3 blank rows would leave
rows 3-5 of each section blank, with the table starting at row 6; but in
the artifact generated for two one-row ranking tables (both flows
non-empty, a reachable call), row 4 of the first section is already the
ranking-table header (`df_info` ends at row 2 and the table is written at
`startrow=4`), so only one blank row (row 3) separates metadata from
data. -/
theorem C3_counterexample :
    ((gerar_arquivo_excel [⟨"1", "A", (100 : ℚ), 100⟩] [⟨"1", "A", (100 : ℚ), 100⟩]
        "Curitiba" "2022").map Prod.snd)[0]?
        = some (excelSheet "Curitiba" "2022" [⟨"1", "A", (100 : ℚ), 100⟩])
    ∧ (excelSheet "Curitiba" "2022" [⟨"1", "A", (100 : ℚ), 100⟩])[4]?
        = some cabecalhoTabela
    ∧ some cabecalhoTabela ≠ some ([] : List Cell) := by
  refine ⟨rfl, ?_, ?_⟩
  · simp [excelSheet]
  · simp [cabecalhoTabela]

/-- C3 amended: each of the two named sections carries the two key-value
metadata rows (municipality, period) in rows 1-2 under the `Filtro/Seleção`
header row 0.  When the section's ranking table is non-empty it is
followed by exactly ONE blank row (row 3) and then the table, whose header
is row 4 — columns in the order rank, label, value, percent — and whose
data rows start at row 5.  When the section's ranking table is empty (its
flow had no records) nothing is written after the metadata block: no gap,
no header, no data. -/
theorem C3_report_layout (df_exp df_imp t : List RankRow)
    (municipio periodo : String) (i : Nat) :
    (gerar_arquivo_excel df_exp df_imp municipio periodo).map Prod.fst
        = ["Exportações", "Importações"]
    ∧ (gerar_arquivo_excel df_exp df_imp municipio periodo).map Prod.snd
        = [excelSheet municipio periodo df_exp, excelSheet municipio periodo df_imp]
    ∧ (excelSheet municipio periodo t)[0]? = some [Cell.str "Filtro", Cell.str "Seleção"]
    ∧ (excelSheet municipio periodo t)[1]? = some [Cell.str "Município", Cell.str municipio]
    ∧ (excelSheet municipio periodo t)[2]? = some [Cell.str "Período", Cell.str periodo]
    ∧ (t = [] → excelSheet municipio periodo t
        = [[Cell.str "Filtro", Cell.str "Seleção"],
           [Cell.str "Município", Cell.str municipio],
           [Cell.str "Período", Cell.str periodo]])
    ∧ (t ≠ [] → (excelSheet municipio periodo t)[3]? = some []
        ∧ (excelSheet municipio periodo t)[4]?
            = some [Cell.str "#", Cell.str "Produto", Cell.str "Valor (US$)",
                    Cell.str "Percentual (%)"]
        ∧ (excelSheet municipio periodo t)[5 + i]? = (t.map linhaTabela)[i]?) := by
  refine ⟨rfl, rfl, ?_, ?_, ?_, ?_, ?_⟩
  · simp [excelSheet]
  · simp [excelSheet]
  · simp [excelSheet]
  · intro ht; simp [excelSheet, ht]
  · intro ht
    have hsheet : excelSheet municipio periodo t
        = [[Cell.str "Filtro", Cell.str "Seleção"],
           [Cell.str "Município", Cell.str municipio],
           [Cell.str "Período", Cell.str periodo],
           [], cabecalhoTabela] ++ t.map linhaTabela := by
      simp [excelSheet, ht]
    refine ⟨by rw [hsheet]; rfl, by rw [hsheet]; simp [cabecalhoTabela], ?_⟩
    have h5 : ([[Cell.str "Filtro", Cell.str "Seleção"],
        [Cell.str "Município", Cell.str municipio],
        [Cell.str "Período", Cell.str periodo],
        [], cabecalhoTabela] : List (List Cell)).length ≤ 5 + i := by
      simp
    rw [hsheet, List.getElem?_append_right h5]
    simp

/-- C3 witness: on a concrete one-row table the table header sits at row 4
(one blank row after the metadata), and on the empty table the sheet is
the metadata block alone. -/
theorem C3_witness :
    (excelSheet "Curitiba" "2022" [⟨"1", "A", (100 : ℚ), 100⟩])[4]?
        = some [Cell.str "#", Cell.str "Produto", Cell.str "Valor (US$)",
                Cell.str "Percentual (%)"]
    ∧ excelSheet "Curitiba" "2022" []
        = [[Cell.str "Filtro", Cell.str "Seleção"],
           [Cell.str "Município", Cell.str "Curitiba"],
           [Cell.str "Período", Cell.str "2022"]] :=
  ⟨((C3_report_layout [] [] [⟨"1", "A", (100 : ℚ), 100⟩] "Curitiba" "2022" 0).2.2.2.2.2.2
      (by decide)).2.1,
   (C3_report_layout [] [] [] "Curitiba" "2022" 0).2.2.2.2.2.1 rfl⟩

/-- C6 counterexample: the claim says no record carries a negative
`fob_value` after ingestion, but `pd.to_numeric(...).fillna(0)` only
replaces coercion failures — a cell that parses as the number -5 is kept
as -5, which is negative. -/
theorem C6_counterexample :
    (carregar_dados [⟨"C", 2020, 1, "P", some (-5 : ℚ)⟩]).map (fun r => r.vl_fob)
        = [(-5 : ℚ)]
    ∧ (-5 : ℚ) < 0 :=
  ⟨rfl, by norm_num⟩

/-- C6 amended: ingestion keeps every record (never drops a row) and sets
`fob_value` to the numeric coercion of the input cell with coercion
failures becoming exactly 0; negative numeric inputs are preserved, so
non-negativity is NOT guaranteed. -/
theorem C6_ingestion (raw : List RawRecord) :
    (carregar_dados raw).length = raw.length
    ∧ (carregar_dados raw).map (fun r => r.vl_fob)
        = raw.map (fun r => r.vl_fob_coerced.getD 0)
    ∧ (∀ (i : Nat) (r : RawRecord), raw[i]? = some r → r.vl_fob_coerced = none →
        (carregar_dados raw)[i]? = some ⟨r.nome_mun, r.co_ano, r.co_mes, r.no_sh4_por, 0⟩) := by
  refine ⟨by simp [carregar_dados], by simp [carregar_dados], ?_⟩
  intro i r hi hnone
  simp [carregar_dados, hi, hnone]

/-- C6 witness: a record whose FOB cell fails numeric coercion is kept,
with value exactly 0. -/
theorem C6_witness :
    (carregar_dados [⟨"C", 2020, 1, "P", none⟩])[0]? = some ⟨"C", 2020, 1, "P", 0⟩ :=
  (C6_ingestion [⟨"C", 2020, 1, "P", none⟩]).2.2 0 ⟨"C", 2020, 1, "P", none⟩ rfl rfl

/-- C10: the report artifact is produced exactly when at least one of the
two filtered flows is non-empty (equivalently, when at least one ranking
table is non-empty); with both flows empty no artifact is generated — an
explicit no-data state (`none`), not an error. -/
theorem C10_download_iff (df_export df_import : List TradeRecord)
    (municipio periodo : String) :
    (relatorio_download df_export df_import municipio periodo).isSome = true
      ↔ (df_export ≠ [] ∨ df_import ≠ []) := by
  have hiff : (criar_tabela_top10_com_totais df_export ≠ []
        ∨ criar_tabela_top10_com_totais df_import ≠ [])
      ↔ (df_export ≠ [] ∨ df_import ≠ []) :=
    or_congr (not_congr (criar_tabela_eq_nil_iff df_export))
      (not_congr (criar_tabela_eq_nil_iff df_import))
  simp only [relatorio_download]
  split
  · next hc => simpa using hiff.mp hc
  · next hc =>
      simp only [Option.isSome_none, Bool.false_eq_true, false_iff]
      exact fun hr => hc (hiff.mpr hr)

/-- C1: for a non-empty filtered collection the table ends in the
"Demais Produtos" (Others) row followed by the "TOTAL" row; the TOTAL
value is exactly the FOB sum of the input collection; and the ranked
values plus the Others value reconstruct the TOTAL value exactly. -/
theorem C1_ranking_totais (df : List TradeRecord) (h : df ≠ []) :
    2 ≤ (criar_tabela_top10_com_totais df).length
    ∧ ((criar_tabela_top10_com_totais df).map (fun r => r.produto)).getLast? = some "TOTAL"
    ∧ (((criar_tabela_top10_com_totais df).map (fun r => r.produto)).dropLast).getLast?
        = some "Demais Produtos"
    ∧ ((criar_tabela_top10_com_totais df).map (fun r => r.valor)).getLast?
        = some ((df.map (fun r => r.vl_fob)).sum)
    ∧ ((((criar_tabela_top10_com_totais df).map (fun r => r.valor)).dropLast).dropLast).sum
        + ((((criar_tabela_top10_com_totais df).map (fun r => r.valor)).dropLast).getLast?).getD 0
        = (((criar_tabela_top10_com_totais df).map (fun r => r.valor)).getLast?).getD 0 := by
  have he := criar_tabela_eq df h
  refine ⟨?_, ?_, ?_, ?_, ?_⟩
  · rw [he]; simp
  · rw [he, List.map_append]
    simp only [List.map_cons, List.map_nil]
    exact (getLast_append_pair _ _ _).1
  · rw [he, List.map_append]
    simp only [List.map_cons, List.map_nil]
    rw [(getLast_append_pair _ _ _).2]
    exact List.getLast?_concat _
  · rw [he, List.map_append]
    simp only [List.map_cons, List.map_nil]
    exact (getLast_append_pair _ _ _).1
  · rw [he, List.map_append]
    simp only [List.map_cons, List.map_nil]
    rw [(getLast_append_pair _ _ _).2, List.dropLast_concat, List.getLast?_concat,
        (getLast_append_pair _ _ _).1]
    simp only [Option.getD_some]
    rw [linhasRanking_map_valor]
    exact top10_mais_demais_eq_total df

/-- C1 witness: on a concrete two-record collection the TOTAL row carries
exactly the input's FOB sum. -/
theorem C1_witness :
    ((criar_tabela_top10_com_totais
        ([⟨"C", 2022, 1, "A", (100 : ℚ)⟩, ⟨"C", 2022, 1, "B", (50 : ℚ)⟩] :
          List TradeRecord)).map (fun r => r.valor)).getLast?
      = some ((([⟨"C", 2022, 1, "A", (100 : ℚ)⟩, ⟨"C", 2022, 1, "B", (50 : ℚ)⟩] :
          List TradeRecord).map (fun r => r.vl_fob)).sum) :=
  (C1_ranking_totais
    [⟨"C", 2022, 1, "A", (100 : ℚ)⟩, ⟨"C", 2022, 1, "B", (50 : ℚ)⟩] (by decide)).2.2.2.1

/-- C4: every row of a non-empty collection's ranking table (ranked rows,
Others and Total alike) has percent equal to `value / total * 100` when
the grand total is positive, and percent 0 when the grand total is 0; in
the embedding over `ℚ` the guarded definition can produce neither NaN nor
a division error. -/
theorem C4_percent_column (df : List TradeRecord) (h : df ≠ []) (row : RankRow)
    (hrow : row ∈ criar_tabela_top10_com_totais df) :
    (0 < total_geral df → row.percentual = row.valor / total_geral df * 100)
    ∧ (total_geral df = 0 → row.percentual = 0) := by
  have hp : row.percentual = pct df row.valor := by
    rw [criar_tabela_eq df h] at hrow
    rcases List.mem_append.mp hrow with hmem | hmem
    · exact percentual_mem_linhasRanking _ _ _ _ hmem
    · rcases List.mem_cons.mp hmem with h1 | h1
      · subst h1; rfl
      · rcases List.mem_cons.mp h1 with h2 | h2
        · subst h2; rfl
        · cases h2
  constructor
  · intro hpos
    rw [hp]
    simp only [pct]
    rw [if_pos hpos]
  · intro hz
    rw [hp]
    simp only [pct]
    rw [if_neg (by rw [hz]; exact lt_irrefl 0)]

unseal Rat.mul Rat.add Rat.sub Rat.inv in
/-- C4 witness: on a one-record collection with value 100 the TOTAL row's
percent is `100 / total * 100`. -/
theorem C4_witness :
    (100 : ℚ) = 100 / total_geral [⟨"C", 2022, 1, "A", (100 : ℚ)⟩] * 100 :=
  (C4_percent_column [⟨"C", 2022, 1, "A", (100 : ℚ)⟩] (by decide)
      ⟨"", "TOTAL", 100, 100⟩ (by decide)).1 (by decide)

/-- C7: in the multi-year balance view every year present in either flow
appears exactly once (duplicate-free key column whose membership is the
union of the two flows' years), the years are in ascending order, the net
column is export minus import, and a year absent from one flow gets 0 for
that flow's total. -/
theorem C7_balanca_anual (df_export df_import : List TradeRecord) :
    ((balanca_anual df_export df_import).map (fun t => t.1)).Sorted (fun a b => a ≤ b)
    ∧ ((balanca_anual df_export df_import).map (fun t => t.1)).Nodup
    ∧ (∀ a : Int, a ∈ (balanca_anual df_export df_import).map (fun t => t.1)
        ↔ (a ∈ df_export.map (fun r => r.co_ano) ∨ a ∈ df_import.map (fun r => r.co_ano)))
    ∧ ∀ t, t ∈ balanca_anual df_export df_import →
        t.2.2.2 = t.2.1 - t.2.2.1
        ∧ (t.1 ∉ df_export.map (fun r => r.co_ano) → t.2.1 = 0)
        ∧ (t.1 ∉ df_import.map (fun r => r.co_ano) → t.2.2.1 = 0) := by
  have hmapfst : (balanca_anual df_export df_import).map (fun t => t.1)
      = List.insertionSort (fun a b => a ≤ b)
          (((groupSumAno df_export).map Prod.fst
            ++ (groupSumAno df_import).map Prod.fst).dedup) := by
    simp only [balanca_anual, List.map_map]
    exact List.map_id' _
  refine ⟨?_, ?_, ?_, ?_⟩
  · rw [hmapfst]; exact List.sorted_insertionSort _ _
  · rw [hmapfst]; exact ((List.perm_insertionSort _ _).nodup_iff).mpr (List.nodup_dedup _)
  · intro a
    rw [hmapfst]
    simp only [List.mem_insertionSort, List.mem_dedup, List.mem_append]
    rw [groupSumAno_keys, groupSumAno_keys]
  · intro t ht
    simp only [balanca_anual, List.mem_map] at ht
    obtain ⟨a, ha, rfl⟩ := ht
    refine ⟨rfl, ?_, ?_⟩
    · intro hnot
      have hnone : (groupSumAno df_export).lookup a = none :=
        lookup_eq_none_of_not_mem_keys _ _
          (fun hmem => hnot ((groupSumAno_keys df_export a).mp hmem))
      simp [hnone]
    · intro hnot
      have hnone : (groupSumAno df_import).lookup a = none :=
        lookup_eq_none_of_not_mem_keys _ _
          (fun hmem => hnot ((groupSumAno_keys df_import a).mp hmem))
      simp [hnone]

unseal Rat.mul Rat.add Rat.sub Rat.inv in
/-- C7 witness: for an export-only dataset with a single 2020 record of
value 5, the 2020 entry has net 5 - 0 and import total 0. -/
theorem C7_witness : (5 : ℚ) = 5 - 0 ∧ (0 : ℚ) = 0 :=
  ⟨((C7_balanca_anual [⟨"C", 2020, 1, "A", (5 : ℚ)⟩] []).2.2.2
      ((2020 : Int), (5 : ℚ), (0 : ℚ), (5 : ℚ)) (by decide)).1,
   ((C7_balanca_anual [⟨"C", 2020, 1, "A", (5 : ℚ)⟩] []).2.2.2
      ((2020 : Int), (5 : ℚ), (0 : ℚ), (5 : ℚ)) (by decide)).2.2 (by decide)⟩

/-- C8: the month-by-month breakdown always has exactly 12 entries, with
month keys 1 through 12 in chronological order, and a month absent from
both filtered flows shows export total, import total and net all 0. -/
theorem C8_balanca_mensal (df_export df_import : List TradeRecord) :
    (balanca_mensal df_export df_import).length = 12
    ∧ (balanca_mensal df_export df_import).map (fun t => t.1)
        = [1, 2, 3, 4, 5, 6, 7, 8, 9, 10, 11, 12]
    ∧ ∀ t, t ∈ balanca_mensal df_export df_import →
        t.1 ∉ df_export.map (fun r => r.co_mes) → t.1 ∉ df_import.map (fun r => r.co_mes) →
        t.2.1 = 0 ∧ t.2.2.1 = 0 ∧ t.2.2.2 = 0 := by
  refine ⟨rfl, rfl, ?_⟩
  intro t ht h1 h2
  simp only [balanca_mensal, List.mem_map] at ht
  obtain ⟨m, hm, rfl⟩ := ht
  have he : (groupSumMes df_export).lookup m = none :=
    lookup_eq_none_of_not_mem_keys _ _
      (fun hmem => h1 ((groupSumMes_keys df_export m).mp hmem))
  have hi : (groupSumMes df_import).lookup m = none :=
    lookup_eq_none_of_not_mem_keys _ _
      (fun hmem => h2 ((groupSumMes_keys df_import m).mp hmem))
  exact ⟨by simp [he], by simp [hi], by simp [he, hi]⟩

unseal Rat.mul Rat.add Rat.sub Rat.inv in
/-- C8 witness: with both flows empty, January's entry shows the export
total, the import total and the net all equal to 0. -/
theorem C8_witness : (0 : ℚ) = 0 ∧ (0 : ℚ) = 0 ∧ (0 : ℚ) = 0 :=
  (C8_balanca_mensal [] []).2.2 ((1 : Nat), (0 : ℚ), (0 : ℚ), (0 : ℚ))
    (by decide) (by decide) (by decide)

end ImpExp
